import Mathlib

/-!
A shallow embedding of the Cadastro_simples customer registry.

Server side (the Netlify function in `netlify/functions` plus the Drizzle
schema): a `customers(id serial primary key, name text, phone text)` relation,
an `ensureTableExists` step (`CREATE TABLE IF NOT EXISTS`), and a single
request handler dispatching on the HTTP method.

Client side (`App.tsx`): the `deleteCustomer` state transition with its
`deletingId` in-flight guard.

External collaborators (the Postgres engine's transport, `JSON.parse`) are
modelled abstractly: a request body is either absent, the empty string
(falsy in JS, so treated as a missing body by the handler), a string that
`JSON.parse` rejects (carrying the thrown error's message), or a parsed
object exposing the `name`, `phone` and `id` fields the handler destructures.
Storage-transport failures are injected through `World.schemaFail` /
`World.dbFail`: `some m` means the corresponding awaited call throws an
error whose `.message` is `m` (`none` inside meaning the error object has
no message, matching JavaScript's `error.message || fallback`).
-/

/-- A row of the `customers` relation: `id serial primary key`,
`name text not null`, `phone text not null` (`db/schema.ts`). -/
structure Customer where
  id : Int
  name : String
  phone : String
deriving DecidableEq, Repr

/-- The persisted state: whether the `customers` relation exists, its rows in
insertion order, and the next value of the `id` serial sequence. -/
structure DBState where
  tableExists : Bool
  rows : List Customer
  nextId : Int
deriving DecidableEq, Repr

/-- The serial sequence never hands out an id already present in the table:
every stored id is below `nextId`. -/
def WF (db : DBState) : Prop := ∀ c ∈ db.rows, c.id < db.nextId

/-- `ensureTableExists` runs `CREATE TABLE IF NOT EXISTS "customers" (...)`:
it creates the relation when absent and otherwise changes nothing. -/
def ensureTableExists (db : DBState) : DBState := { db with tableExists := true }

/-- `ORDER BY id DESC`: row `a` precedes row `b` when `b.id ≤ a.id`. -/
def descId (a b : Customer) : Prop := b.id ≤ a.id

instance : DecidableRel descId := fun a b => inferInstanceAs (Decidable (b.id ≤ a.id))

instance : IsTotal Customer descId := ⟨fun a b => le_total b.id a.id⟩

instance : IsTrans Customer descId := ⟨fun _ _ _ h1 h2 => le_trans h2 h1⟩

/-- `db.query.customers.findMany({ orderBy: [desc(customers.id)] })`:
all rows, ordered by `id` descending. -/
def listCustomers (db : DBState) : List Customer := List.insertionSort descId db.rows

/-- `db.insert(customers).values({ name, phone }).returning()`: the serial
sequence assigns `nextId`, the row is appended, and the created row is
returned. -/
def insertCustomer (name phone : String) (db : DBState) : Customer × DBState :=
  let c : Customer := ⟨db.nextId, name, phone⟩
  (c, { db with rows := db.rows ++ [c], nextId := db.nextId + 1 })

/-- `db.delete(customers).where(eq(customers.id, i)).returning()`: every row
whose `id` equals `i` is removed; the first returned row (or `none` when no
row matched, in which case the state is untouched). -/
def deleteCustomer (i : Int) (db : DBState) : Option Customer × DBState :=
  match db.rows.filter (fun c => c.id == i) with
  | [] => (none, db)
  | c :: _ => (some c, { db with rows := db.rows.filter (fun c => c.id != i) })

/-- What the handler sees as `event.body` after the external `JSON.parse`
is taken into account: `emptyStr` is the empty string (falsy, rejected by the
`if (!body)` guard), `invalid` is a non-empty string `JSON.parse` throws on
(with the thrown error's `.message`), `obj` is a parsed object exposing the
destructured fields (`none` = absent/undefined, `some ""` / `some 0` = present
but falsy). -/
inductive Body where
  | emptyStr : Body
  | invalid (message : Option String) : Body
  | obj (name phone : Option String) (idField : Option Int) : Body
deriving DecidableEq, Repr

/-- JavaScript truthiness of a destructured string field: `undefined` and
`""` are falsy. -/
def truthyStr : Option String → Bool
  | none => false
  | some s => s != ""

/-- JavaScript truthiness of a destructured numeric field: `undefined` and
`0` are falsy. -/
def truthyInt : Option Int → Bool
  | none => false
  | some i => i != 0

/-- Shape of every body the handler serialises with `JSON.stringify`. -/
inductive RespBody where
  | jsonList (cs : List Customer) : RespBody
  | jsonCustomer (c : Customer) : RespBody
  | jsonError (error : String) : RespBody
  | jsonMessage (message : String) (id : Int) : RespBody
deriving DecidableEq, Repr

/-- A handler response: status code, whether the
`Content-Type: application/json` header is attached, and the body. -/
structure Response where
  statusCode : Nat
  hasJsonContentType : Bool
  body : RespBody
deriving DecidableEq, Repr

/-- The `{ httpMethod, body }` fields the handler destructures from the
Netlify event. -/
structure Request where
  httpMethod : String
  body : Option Body
deriving DecidableEq, Repr

/-- The environment the handler runs against: the database state and the
injected transport failures (`some m`: the awaited call throws an error whose
`.message` is `m`; inner `none`: the error carries no message). -/
structure World where
  db : DBState
  schemaFail : Option (Option String)
  dbFail : Option (Option String)
deriving DecidableEq, Repr

def msgNoDbUrl : String := "A variável de ambiente DATABASE_URL não está configurada."

def msgMissingBody : String := "Corpo da requisição ausente."

def msgNamePhoneRequired : String := "Nome e telefone são obrigatórios."

def msgIdRequired : String := "ID do cliente é obrigatório."

def msgNotFound : String := "Cliente não encontrado."

def msgDeleted : String := "Cliente removido com sucesso."

def msgMethodNotAllowed : String := "Método não permitido."

def msgGenericError : String := "Erro interno do servidor."

/-- `error.message || "Erro interno do servidor."`: forward the thrown
message verbatim, falling back to the generic message when it is absent or
empty (both falsy in JavaScript). -/
def errMsg : Option String → String
  | none => msgGenericError
  | some s => if s = "" then msgGenericError else s

/-- The Netlify request handler: check `DATABASE_URL`, run
`ensureTableExists`, dispatch on the method inside the `try/catch`. Returns
the resulting database state and the HTTP response. -/
def handler (dbUrl : Bool) (req : Request) (w : World) : DBState × Response :=
  if !dbUrl then
    (w.db, ⟨500, true, .jsonError msgNoDbUrl⟩)
  else
    match w.schemaFail with
    | some m => (w.db, ⟨500, true, .jsonError (errMsg m)⟩)
    | none =>
      let db := ensureTableExists w.db
      match req.httpMethod with
      | "GET" =>
        match w.dbFail with
        | some m => (db, ⟨500, true, .jsonError (errMsg m)⟩)
        | none => (db, ⟨200, true, .jsonList (listCustomers db)⟩)
      | "POST" =>
        match req.body with
        | none => (db, ⟨400, false, .jsonError msgMissingBody⟩)
        | some .emptyStr => (db, ⟨400, false, .jsonError msgMissingBody⟩)
        | some (.invalid m) => (db, ⟨500, true, .jsonError (errMsg m)⟩)
        | some (.obj name phone _) =>
          if truthyStr name && truthyStr phone then
            match w.dbFail with
            | some m => (db, ⟨500, true, .jsonError (errMsg m)⟩)
            | none =>
              let r := insertCustomer (name.getD "") (phone.getD "") db
              (r.2, ⟨201, true, .jsonCustomer r.1⟩)
          else (db, ⟨400, false, .jsonError msgNamePhoneRequired⟩)
      | "DELETE" =>
        match req.body with
        | none => (db, ⟨400, false, .jsonError msgMissingBody⟩)
        | some .emptyStr => (db, ⟨400, false, .jsonError msgMissingBody⟩)
        | some (.invalid m) => (db, ⟨500, true, .jsonError (errMsg m)⟩)
        | some (.obj _ _ idField) =>
          if truthyInt idField then
            match w.dbFail with
            | some m => (db, ⟨500, true, .jsonError (errMsg m)⟩)
            | none =>
              let i := idField.getD 0
              match deleteCustomer i db with
              | (none, db2) => (db2, ⟨404, false, .jsonError msgNotFound⟩)
              | (some _, db2) => (db2, ⟨200, true, .jsonMessage msgDeleted i⟩)
          else (db, ⟨400, false, .jsonError msgIdRequired⟩)
      | _ => (db, ⟨405, false, .jsonError msgMethodNotAllowed⟩)

/-- Client-side state held by the `App` component that `deleteCustomer`
reads and writes. -/
structure AppState where
  customers : List Customer
  deletingId : Option Int
deriving DecidableEq, Repr

namespace App

/-- The client's `deleteCustomer(id)` transition (`App.tsx`): if the
`deletingId` guard is truthy, return without issuing a request; otherwise
issue the DELETE (`ok` is whether `response.ok` held), filter the row out on
success, leave the list alone on failure, and clear `deletingId` in the
`finally` block. Returns the new state and whether a request was issued. -/
def deleteCustomer (s : AppState) (id : Int) (ok : Bool) : AppState × Bool :=
  if truthyInt s.deletingId then (s, false)
  else if ok then (⟨s.customers.filter (fun c => c.id != id), none⟩, true)
  else (⟨s.customers, none⟩, true)

end App

/-! ### Helper lemmas -/

theorem trim_empty : ("" : String).trim = "" := by
  simp only [String.trim, String.trimRight, String.trimLeft, Substring.trim, String.toSubstring,
    Substring.toString]
  rw [Substring.takeWhileAux, Substring.takeRightWhileAux]
  simp [String.extract]

theorem ne_empty_of_trim_ne_empty {s : String} (h : s.trim ≠ "") : s ≠ "" := by
  intro hs
  exact h (hs ▸ trim_empty)

theorem deleteCustomer_of_not_mem (i : Int) (db : DBState)
    (h : ∀ c ∈ db.rows, c.id ≠ i) : deleteCustomer i db = (none, db) := by
  unfold deleteCustomer
  have hnil : db.rows.filter (fun c => c.id == i) = [] := by
    rw [List.filter_eq_nil_iff]
    intro c hc
    simpa using h c hc
  rw [hnil]

theorem deleteCustomer_of_mem (i : Int) (db : DBState)
    (h : ∃ c ∈ db.rows, c.id = i) :
    ∃ c0, deleteCustomer i db =
      (some c0, { db with rows := db.rows.filter (fun c => c.id != i) }) := by
  unfold deleteCustomer
  obtain ⟨c, hc, hci⟩ := h
  have hmem : c ∈ db.rows.filter (fun c => c.id == i) :=
    List.mem_filter.mpr ⟨hc, by simp [hci]⟩
  rcases hfe : db.rows.filter (fun c => c.id == i) with _ | ⟨c0, t⟩
  · rw [hfe] at hmem
    exact absurd hmem (List.not_mem_nil c)
  · exact ⟨c0, by rw [hfe]⟩

/-! ### Claims -/

/-- C4: for every request, whatever the HTTP method and body, when
`DATABASE_URL` is not set the handler answers `500` with the JSON body
`{error: msgNoDbUrl}` and the database state is untouched (no storage
access happens): the check comes first, unconditionally. -/
theorem c4_missing_database_url_short_circuits (req : Request) (w : World) :
    handler false req w = (w.db, ⟨500, true, .jsonError msgNoDbUrl⟩) := rfl

/-- C7: `ensureTableExists` (the spec's `ensureSchema`) is idempotent: a
second call is a no-op, no call ever alters the stored rows or the serial
sequence, and afterwards the relation exists.  As a total function of the
database state it never fails; transport failures are modelled separately
(`World.schemaFail`). -/
theorem c7_ensure_schema_idempotent (db : DBState) :
    ensureTableExists (ensureTableExists db) = ensureTableExists db ∧
    (ensureTableExists db).rows = db.rows ∧
    (ensureTableExists db).nextId = db.nextId ∧
    (ensureTableExists db).tableExists = true :=
  ⟨rfl, rfl, rfl, rfl⟩

/-- C1: with `DATABASE_URL` set and no storage failure, a GET request (any
body) answers `200` with the JSON array `listCustomers`, which contains
exactly the rows of the relation (it is a permutation of them) ordered by
`id` descending; in particular it is empty when the relation is. -/
theorem c1_get_returns_all_customers_desc (w : World) (b : Option Body)
    (hs : w.schemaFail = none) (hd : w.dbFail = none) :
    handler true ⟨"GET", b⟩ w =
      (ensureTableExists w.db,
        ⟨200, true, .jsonList (listCustomers (ensureTableExists w.db))⟩) ∧
    List.Perm (listCustomers (ensureTableExists w.db)) w.db.rows ∧
    List.Sorted descId (listCustomers (ensureTableExists w.db)) := by
  refine ⟨?_, ?_, ?_⟩
  · simp [handler, hs, hd]
  · exact List.perm_insertionSort descId w.db.rows
  · exact List.sorted_insertionSort descId w.db.rows

/-- Witness for C1 on a two-row database stored in ascending order. -/
theorem c1_get_returns_all_customers_desc_witness :
    handler true ⟨"GET", none⟩
        ⟨⟨false, [⟨1, "Ana", "111"⟩, ⟨2, "Bia", "222"⟩], 3⟩, none, none⟩ =
      (ensureTableExists ⟨false, [⟨1, "Ana", "111"⟩, ⟨2, "Bia", "222"⟩], 3⟩,
        ⟨200, true,
          .jsonList (listCustomers
            (ensureTableExists ⟨false, [⟨1, "Ana", "111"⟩, ⟨2, "Bia", "222"⟩], 3⟩))⟩) ∧
    List.Perm (listCustomers (ensureTableExists ⟨false, [⟨1, "Ana", "111"⟩, ⟨2, "Bia", "222"⟩], 3⟩))
      [⟨1, "Ana", "111"⟩, ⟨2, "Bia", "222"⟩] ∧
    List.Sorted descId (listCustomers
      (ensureTableExists ⟨false, [⟨1, "Ana", "111"⟩, ⟨2, "Bia", "222"⟩], 3⟩)) :=
  c1_get_returns_all_customers_desc
    ⟨⟨false, [⟨1, "Ana", "111"⟩, ⟨2, "Bia", "222"⟩], 3⟩, none, none⟩ none rfl rfl

/-- C2: for every `(name, phone)` both non-empty after trimming, with
`DATABASE_URL` set and no storage failure, a POST with body
`{name, phone}` appends exactly one row, answers `201` with exactly that
row, and the assigned id is `nextId`: fresh (absent from the relation,
by well-formedness) and never reused later (the sequence strictly
increases and well-formedness is preserved). -/
theorem c2_post_inserts_fresh_record (w : World) (name phone : String) (i : Option Int)
    (hn : name.trim ≠ "") (hp : phone.trim ≠ "")
    (hs : w.schemaFail = none) (hd : w.dbFail = none) (hwf : WF w.db) :
    handler true ⟨"POST", some (.obj (some name) (some phone) i)⟩ w =
      ({ w.db with
          tableExists := true
          rows := w.db.rows ++ [⟨w.db.nextId, name, phone⟩]
          nextId := w.db.nextId + 1 },
        ⟨201, true, .jsonCustomer ⟨w.db.nextId, name, phone⟩⟩) ∧
    (∀ c ∈ w.db.rows, c.id ≠ w.db.nextId) ∧
    WF { w.db with
          tableExists := true
          rows := w.db.rows ++ [⟨w.db.nextId, name, phone⟩]
          nextId := w.db.nextId + 1 } := by
  have hn' : name ≠ "" := ne_empty_of_trim_ne_empty hn
  have hp' : phone ≠ "" := ne_empty_of_trim_ne_empty hp
  refine ⟨?_, ?_, ?_⟩
  · simp [handler, hs, hd, truthyStr, insertCustomer, ensureTableExists, hn', hp']
  · exact fun c hc => ne_of_lt (hwf c hc)
  · intro c hc
    rcases List.mem_append.mp hc with h | h
    · exact lt_trans (hwf c h) (lt_add_one _)
    · rw [List.mem_singleton.mp h]
      exact lt_add_one _

/-- Witness for C2: inserting `("Ana", "111")` into the empty relation
(spec scenario 1). -/
theorem c2_post_inserts_fresh_record_witness :
    handler true ⟨"POST", some (.obj (some "Ana") (some "111") none)⟩
        ⟨⟨false, [], 1⟩, none, none⟩ =
      ({ DBState.mk false [] 1 with
          tableExists := true
          rows := ([] : List Customer) ++ [⟨(1 : Int), "Ana", "111"⟩]
          nextId := (1 : Int) + 1 },
        ⟨201, true, .jsonCustomer ⟨1, "Ana", "111"⟩⟩) :=
  (c2_post_inserts_fresh_record ⟨⟨false, [], 1⟩, none, none⟩ "Ana" "111" none
    (by
      simp only [String.trim, String.trimRight, String.trimLeft, Substring.trim,
        String.toSubstring, Substring.toString]
      rw [Substring.takeWhileAux, Substring.takeRightWhileAux]
      decide)
    (by
      simp only [String.trim, String.trimRight, String.trimLeft, Substring.trim,
        String.toSubstring, Substring.toString]
      rw [Substring.takeWhileAux, Substring.takeRightWhileAux]
      decide)
    rfl rfl (by intro c hc; exact absurd hc (List.not_mem_nil c))).1

/-- C6: a POST with an absent body answers `400` with
`{error: msgMissingBody}` (the empty string, falsy in JS, is rejected the
same way); a POST whose parsed body lacks a non-empty string `name` or a
non-empty string `phone` answers `400` with `{error: msgNamePhoneRequired}`;
in all cases the rows and the serial sequence are untouched. -/
theorem c6_post_validation_rejects (w : World) (n p : Option String) (i : Option Int)
    (hs : w.schemaFail = none) :
    (handler true ⟨"POST", none⟩ w =
      (ensureTableExists w.db, ⟨400, false, .jsonError msgMissingBody⟩)) ∧
    (handler true ⟨"POST", some .emptyStr⟩ w =
      (ensureTableExists w.db, ⟨400, false, .jsonError msgMissingBody⟩)) ∧
    (truthyStr n = false ∨ truthyStr p = false →
      handler true ⟨"POST", some (.obj n p i)⟩ w =
        (ensureTableExists w.db, ⟨400, false, .jsonError msgNamePhoneRequired⟩)) ∧
    (ensureTableExists w.db).rows = w.db.rows ∧
    (ensureTableExists w.db).nextId = w.db.nextId := by
  refine ⟨by simp [handler, hs], by simp [handler, hs], ?_, rfl, rfl⟩
  rintro (h | h) <;> simp [handler, hs, h]

/-- Witness for C6: POST `{name: "", phone: "222"}` against a one-row
database (spec scenario 3). -/
theorem c6_post_validation_rejects_witness :
    (handler true ⟨"POST", none⟩ ⟨⟨true, [⟨1, "Ana", "111"⟩], 2⟩, none, none⟩ =
      (ensureTableExists ⟨true, [⟨1, "Ana", "111"⟩], 2⟩,
        ⟨400, false, .jsonError msgMissingBody⟩)) ∧
    (handler true ⟨"POST", some (.obj (some "") (some "222") none)⟩
        ⟨⟨true, [⟨1, "Ana", "111"⟩], 2⟩, none, none⟩ =
      (ensureTableExists ⟨true, [⟨1, "Ana", "111"⟩], 2⟩,
        ⟨400, false, .jsonError msgNamePhoneRequired⟩)) ∧
    (ensureTableExists ⟨true, [⟨1, "Ana", "111"⟩], 2⟩).rows = [⟨1, "Ana", "111"⟩] :=
  ⟨(c6_post_validation_rejects ⟨⟨true, [⟨1, "Ana", "111"⟩], 2⟩, none, none⟩
      (some "") (some "222") none rfl).1,
   (c6_post_validation_rejects ⟨⟨true, [⟨1, "Ana", "111"⟩], 2⟩, none, none⟩
      (some "") (some "222") none rfl).2.2.1 (Or.inl rfl),
   (c6_post_validation_rejects ⟨⟨true, [⟨1, "Ana", "111"⟩], 2⟩, none, none⟩
      (some "") (some "222") none rfl).2.2.2.1⟩

/-- C3 counterexample: a DELETE with body `{id: 0}` against a relation that
contains no row with id `0` answers `400` (the JS guard `if (!id)` treats
`0` as missing), not the `404` the claim promises for every id matching no
row. -/
theorem c3_counterexample_zero_id :
    (handler true ⟨"DELETE", some (.obj none none (some 0))⟩
        ⟨⟨true, [⟨1, "Ana", "111"⟩], 2⟩, none, none⟩).2.statusCode = 400 ∧
    (handler true ⟨"DELETE", some (.obj none none (some 0))⟩
        ⟨⟨true, [⟨1, "Ana", "111"⟩], 2⟩, none, none⟩).2.statusCode ≠ 404 ∧
    ([⟨1, "Ana", "111"⟩] : List Customer).all (fun c => c.id != 0) = true := by
  refine ⟨?_, ?_, ?_⟩ <;> decide

/-- C3 amended: a DELETE with a missing body or a missing or zero (falsy)
`id` answers `400`; a DELETE whose nonzero id matches no row answers `404`
with `{error: msgNotFound}` and leaves the relation unchanged; otherwise it
removes exactly the rows matching the id and answers `200` with
`{message, id}`. -/
theorem c3_delete_cases (w : World) (n p : Option String) (i : Int)
    (hs : w.schemaFail = none) (hd : w.dbFail = none) (hi : i ≠ 0) :
    (handler true ⟨"DELETE", none⟩ w =
      (ensureTableExists w.db, ⟨400, false, .jsonError msgMissingBody⟩)) ∧
    (handler true ⟨"DELETE", some (.obj n p none)⟩ w =
      (ensureTableExists w.db, ⟨400, false, .jsonError msgIdRequired⟩)) ∧
    (handler true ⟨"DELETE", some (.obj n p (some 0))⟩ w =
      (ensureTableExists w.db, ⟨400, false, .jsonError msgIdRequired⟩)) ∧
    ((∀ c ∈ w.db.rows, c.id ≠ i) →
      handler true ⟨"DELETE", some (.obj n p (some i))⟩ w =
        (ensureTableExists w.db, ⟨404, false, .jsonError msgNotFound⟩)) ∧
    ((∃ c ∈ w.db.rows, c.id = i) →
      handler true ⟨"DELETE", some (.obj n p (some i))⟩ w =
        ({ ensureTableExists w.db with
            rows := w.db.rows.filter (fun c => c.id != i) },
          ⟨200, true, .jsonMessage msgDeleted i⟩)) ∧
    (ensureTableExists w.db).rows = w.db.rows := by
  refine ⟨by simp [handler, hs], by simp [handler, hs, truthyInt],
    by simp [handler, hs, truthyInt], ?_, ?_, rfl⟩
  · intro h
    have hdel : deleteCustomer i (ensureTableExists w.db) = (none, ensureTableExists w.db) :=
      deleteCustomer_of_not_mem i (ensureTableExists w.db) h
    simp [handler, hs, hd, truthyInt, hi, hdel]
  · intro h
    obtain ⟨c0, hdel⟩ := deleteCustomer_of_mem i (ensureTableExists w.db) h
    simp only [ensureTableExists] at hdel
    simp [handler, hs, hd, truthyInt, hi, hdel, ensureTableExists]

/-- Witness for C3 amended: against the one-row relation `[{1, Ana, 111}]`,
deleting id `1` succeeds with `200`, deleting the nonzero id `999` is a
`404` not-found, and a missing body is a `400`. -/
theorem c3_delete_cases_witness :
    (handler true ⟨"DELETE", some (.obj none none (some 1))⟩
        ⟨⟨true, [⟨1, "Ana", "111"⟩], 2⟩, none, none⟩ =
      ({ ensureTableExists ⟨true, [⟨1, "Ana", "111"⟩], 2⟩ with
          rows := ([⟨1, "Ana", "111"⟩] : List Customer).filter (fun c => c.id != (1 : Int)) },
        ⟨200, true, .jsonMessage msgDeleted 1⟩)) ∧
    (handler true ⟨"DELETE", some (.obj none none (some 999))⟩
        ⟨⟨true, [⟨1, "Ana", "111"⟩], 2⟩, none, none⟩ =
      (ensureTableExists ⟨true, [⟨1, "Ana", "111"⟩], 2⟩,
        ⟨404, false, .jsonError msgNotFound⟩)) ∧
    (handler true ⟨"DELETE", none⟩ ⟨⟨true, [⟨1, "Ana", "111"⟩], 2⟩, none, none⟩ =
      (ensureTableExists ⟨true, [⟨1, "Ana", "111"⟩], 2⟩,
        ⟨400, false, .jsonError msgMissingBody⟩)) :=
  ⟨(c3_delete_cases ⟨⟨true, [⟨1, "Ana", "111"⟩], 2⟩, none, none⟩ none none 1 rfl rfl
      (by decide)).2.2.2.2.1 ⟨⟨1, "Ana", "111"⟩, by simp, rfl⟩,
   (c3_delete_cases ⟨⟨true, [⟨1, "Ana", "111"⟩], 2⟩, none, none⟩ none none 999 rfl rfl
      (by decide)).2.2.2.1 (by decide),
   (c3_delete_cases ⟨⟨true, [⟨1, "Ana", "111"⟩], 2⟩, none, none⟩ none none 1 rfl rfl
      (by decide)).1⟩

/-- C10 counterexample: a POST whose body is present but is the empty
string — which `JSON.parse` rejects — answers `400` (the JS guard
`if (!body)` treats the falsy empty string as a missing body), not the
claimed `500`. -/
theorem c10_counterexample_empty_body :
    (handler true ⟨"POST", some .emptyStr⟩
        ⟨⟨true, [], 1⟩, none, none⟩).2.statusCode = 400 ∧
    (handler true ⟨"POST", some .emptyStr⟩
        ⟨⟨true, [], 1⟩, none, none⟩).2.statusCode ≠ 500 := by
  refine ⟨?_, ?_⟩ <;> decide

/-- C10 amended: a POST or DELETE whose body is present and non-empty but
not valid JSON answers `500` (the `JSON.parse` failure escapes to the
generic catch-all, forwarding the parse error's message), not a `400`
validation error; the relation is left unchanged. -/
theorem c10_invalid_json_hits_catch_all (w : World) (method : String) (m : Option String)
    (hs : w.schemaFail = none)
    (hmethod : method = "POST" ∨ method = "DELETE") :
    handler true ⟨method, some (.invalid m)⟩ w =
      (ensureTableExists w.db, ⟨500, true, .jsonError (errMsg m)⟩) ∧
    (ensureTableExists w.db).rows = w.db.rows ∧
    (ensureTableExists w.db).nextId = w.db.nextId := by
  rcases hmethod with rfl | rfl <;> exact ⟨by simp [handler, hs], rfl, rfl⟩

/-- Witness for C10 amended: a POST carrying an unparsable body whose parse
error message is "boom". -/
theorem c10_invalid_json_hits_catch_all_witness :
    handler true ⟨"POST", some (.invalid (some "boom"))⟩
        ⟨⟨true, [⟨1, "Ana", "111"⟩], 2⟩, none, none⟩ =
      (ensureTableExists ⟨true, [⟨1, "Ana", "111"⟩], 2⟩,
        ⟨500, true, .jsonError (errMsg (some "boom"))⟩) ∧
    (ensureTableExists ⟨true, [⟨1, "Ana", "111"⟩], 2⟩).rows = [⟨1, "Ana", "111"⟩] ∧
    (ensureTableExists ⟨true, [⟨1, "Ana", "111"⟩], 2⟩).nextId = 2 :=
  c10_invalid_json_hits_catch_all ⟨⟨true, [⟨1, "Ana", "111"⟩], 2⟩, none, none⟩
    "POST" (some "boom") rfl (Or.inl rfl)

/-- C9 counterexample: the `400` answer to a POST with a missing body — a
response that is neither the bare `405` nor the catch-all — carries no
`Content-Type: application/json` header, contradicting the claim that every
other response does. -/
theorem c9_counterexample_400_without_header :
    (handler true ⟨"POST", none⟩ ⟨⟨true, [], 1⟩, none, none⟩).2.statusCode = 400 ∧
    (handler true ⟨"POST", none⟩ ⟨⟨true, [], 1⟩, none, none⟩).2.hasJsonContentType = false := by
  refine ⟨?_, ?_⟩ <;> decide

/-- C9 amended: a handler response carries the
`Content-Type: application/json` header exactly when its status is `200`,
`201` or `500`; the `400` validation answers, the `404` not-found answer and
the bare `405` answer do not set it. -/
theorem c9_json_content_type_iff_status (dbUrl : Bool) (req : Request) (w : World) :
    (handler dbUrl req w).2.hasJsonContentType = true ↔
      ((handler dbUrl req w).2.statusCode = 200 ∨
       (handler dbUrl req w).2.statusCode = 201 ∨
       (handler dbUrl req w).2.statusCode = 500) := by
  unfold handler
  repeat' split
  all_goals try simp
  all_goals split <;> simp

/-- C8 counterexample: in the client state `deletingId = 0` — a state where
`deletingId` is set — a call to `deleteCustomer` is NOT ignored: the JS guard
`if (deletingId) return` treats `0` as falsy, so a request is issued and the
state changes. -/
theorem c8_counterexample_zero_deleting_id :
    (App.deleteCustomer ⟨[⟨1, "Ana", "111"⟩], some 0⟩ 1 true).2 = true ∧
    App.deleteCustomer ⟨[⟨1, "Ana", "111"⟩], some 0⟩ 1 true ≠
      (⟨[⟨1, "Ana", "111"⟩], some 0⟩, false) := by
  refine ⟨?_, ?_⟩ <;> decide

/-- C8 amended: when `deletingId` is set to a nonzero id, `deleteCustomer`
is ignored (no request issued, state unchanged); when `deletingId` is null,
a successful deletion removes exactly the records with the matching id from
the local list (and clears the guard), and a failed deletion leaves the list
unchanged. -/
theorem c8_delete_guard (s : AppState) (id : Int) :
    (∀ d, s.deletingId = some d → d ≠ 0 →
      ∀ ok, App.deleteCustomer s id ok = (s, false)) ∧
    (s.deletingId = none →
      App.deleteCustomer s id true =
        (⟨s.customers.filter (fun c => c.id != id), none⟩, true)) ∧
    (s.deletingId = none →
      App.deleteCustomer s id false = (⟨s.customers, none⟩, true)) := by
  refine ⟨?_, ?_, ?_⟩
  · intro d hd hne ok
    simp [App.deleteCustomer, truthyInt, hd, hne]
  · intro h
    simp [App.deleteCustomer, truthyInt, h]
  · intro h
    simp [App.deleteCustomer, truthyInt, h]

/-- Witness for C8 amended: with a deletion of id `5` in flight the call is
ignored; with no deletion in flight, success filters the row out and failure
keeps the list. -/
theorem c8_delete_guard_witness :
    App.deleteCustomer ⟨[⟨1, "Ana", "111"⟩], some 5⟩ 1 true =
      (⟨[⟨1, "Ana", "111"⟩], some 5⟩, false) ∧
    App.deleteCustomer ⟨[⟨1, "Ana", "111"⟩], none⟩ 1 true =
      (⟨([⟨1, "Ana", "111"⟩] : List Customer).filter (fun c => c.id != (1 : Int)),
        none⟩, true) ∧
    App.deleteCustomer ⟨[⟨1, "Ana", "111"⟩], none⟩ 1 false =
      (⟨[⟨1, "Ana", "111"⟩], none⟩, true) :=
  ⟨(c8_delete_guard ⟨[⟨1, "Ana", "111"⟩], some 5⟩ 1).1 5 rfl (by decide) true,
   (c8_delete_guard ⟨[⟨1, "Ana", "111"⟩], none⟩ 1).2.1 rfl,
   (c8_delete_guard ⟨[⟨1, "Ana", "111"⟩], none⟩ 1).2.2 rfl⟩

theorem deleteCustomer_tableExists (i : Int) (db : DBState) :
    ((deleteCustomer i db).2).tableExists = db.tableExists := by
  unfold deleteCustomer
  split <;> rfl

/-- C5: `ensureTableExists` failures short-circuit every method into a `500`
whose error field is the thrown message forwarded verbatim (generic fallback
exactly when the message is absent or empty); when it succeeds the relation
exists before any dispatch step runs, whatever the method and body; and a
storage failure in any dispatch step (GET list, POST insert, DELETE delete)
is likewise forwarded as a `500`. -/
theorem c5_schema_first_and_verbatim_errors :
    (∀ (w : World) (req : Request) (m : Option String), w.schemaFail = some m →
      handler true req w = (w.db, ⟨500, true, .jsonError (errMsg m)⟩)) ∧
    (∀ s : String, s ≠ "" → errMsg (some s) = s) ∧
    errMsg none = msgGenericError ∧
    errMsg (some "") = msgGenericError ∧
    (∀ (w : World) (req : Request), w.schemaFail = none →
      ((handler true req w).1).tableExists = true) ∧
    (∀ (w : World) (b : Option Body) (m : Option String),
      w.schemaFail = none → w.dbFail = some m →
      handler true ⟨"GET", b⟩ w =
        (ensureTableExists w.db, ⟨500, true, .jsonError (errMsg m)⟩)) ∧
    (∀ (w : World) (n p : String) (i : Option Int) (m : Option String),
      w.schemaFail = none → w.dbFail = some m → n ≠ "" → p ≠ "" →
      handler true ⟨"POST", some (.obj (some n) (some p) i)⟩ w =
        (ensureTableExists w.db, ⟨500, true, .jsonError (errMsg m)⟩)) ∧
    (∀ (w : World) (n p : Option String) (i : Int) (m : Option String),
      w.schemaFail = none → w.dbFail = some m → i ≠ 0 →
      handler true ⟨"DELETE", some (.obj n p (some i))⟩ w =
        (ensureTableExists w.db, ⟨500, true, .jsonError (errMsg m)⟩)) := by
  refine ⟨?_, ?_, rfl, rfl, ?_, ?_, ?_, ?_⟩
  · intro w req m hm
    simp [handler, hm]
  · intro s h
    simp [errMsg, h]
  · intro w req hs
    rcases req with ⟨method, body⟩
    simp only [handler, hs, Bool.not_true]
    repeat' split
    all_goals try rfl
    all_goals rename_i heq
    all_goals try (exact absurd heq (by decide))
    all_goals
      (have h2 := congrArg (fun x => (x.2).tableExists) heq
       simp only [deleteCustomer_tableExists] at h2
       dsimp only
       rw [← h2]
       rfl)
  · intro w b m hs hd
    simp [handler, hs, hd]
  · intro w n p i m hs hd hn hp
    simp [handler, hs, hd, truthyStr, hn, hp]
  · intro w n p i m hs hd hi
    simp [handler, hs, hd, truthyInt, hi]

/-- Witness for C5: a schema failure with message "relation does not exist"
is forwarded verbatim on a GET, and a successful `ensureTableExists` leaves
the relation existing even for an unknown method. -/
theorem c5_schema_first_and_verbatim_errors_witness :
    handler true ⟨"GET", none⟩
        ⟨⟨false, [], 1⟩, some (some "relation does not exist"), none⟩ =
      (⟨false, [], 1⟩, ⟨500, true, .jsonError (errMsg (some "relation does not exist"))⟩) ∧
    errMsg (some "relation does not exist") = "relation does not exist" ∧
    ((handler true ⟨"PATCH", none⟩ ⟨⟨false, [], 1⟩, none, none⟩).1).tableExists = true :=
  ⟨c5_schema_first_and_verbatim_errors.1
      ⟨⟨false, [], 1⟩, some (some "relation does not exist"), none⟩ ⟨"GET", none⟩
      (some "relation does not exist") rfl,
   c5_schema_first_and_verbatim_errors.2.1 "relation does not exist" (by decide),
   c5_schema_first_and_verbatim_errors.2.2.2.2.1
      ⟨⟨false, [], 1⟩, none, none⟩ ⟨"PATCH", none⟩ rfl⟩
